import Mathlib

/-!
Shallow embedding of the Can:Sat E32 LoRa driver (src/main.ts).

The source file holds two near-duplicate variants of the driver:
the first (v1, with a finishFailSafe helper and a debug stage counter)
and the second (v2, with an echo-acceptance degraded-success path and an
unconditional cacheCfg after the parameter write).  Both are embedded,
as namespaces cansat (v1) and cansat2 (v2).

Buffers are lists of byte values (Nat).  Hardware outcomes (AUX polls,
serial chunks) are supplied by an environment record; timed polling loops
take a fuel parameter standing for the number of poll iterations the
timeout budget allows.  serial.redirect and pause are external
collaborators with no modelled state.
-/

set_option maxRecDepth 8000

/-- SPED byte packing from applyConfig:
bits 7..6 parity, bits 5..3 uart baud, bits 2..0 air data rate,
each field masked to its width first. -/
def packSpeedByte (parity uart air : Nat) : Nat :=
  ((parity &&& 0x03) <<< 6) ||| ((uart &&& 0x07) <<< 3) ||| (air &&& 0x07)

/-- OPTION byte packing from applyConfig:
bits 1..0 power, bit 2 set when tx mode is Fixed (mode = 1). -/
def packOptionByte (p mode : Nat) : Nat :=
  (p &&& 0x03) ||| (if mode = 1 then 1 <<< 2 else 0)

/-- The 6-byte write frame built in applyConfig:
0xC0 followed by the five payload bytes, each masked to one byte. -/
def buildWriteFrame (addh addl ch sped opt : Nat) : List Nat :=
  [0xC0, addh &&& 0xff, addl &&& 0xff, ch &&& 0xff, sped &&& 0xff, opt &&& 0xff]

/-- bufferConcat from the source: a fresh buffer holding the bytes of a
followed by the bytes of b (the element-copy loops amount to append). -/
def bufferConcat (a b : List Nat) : List Nat := a ++ b

/-- The polling loop of readBytesWithTimeout.  Each iteration models one
trip through the while loop: if fewer than n bytes are accumulated,
serial.readBuffer (n - buf.length) returns at most that many bytes of the
next available chunk; an empty read just consumes time.  fuel is the
number of iterations the timeout budget allows. -/
def readLoop : Nat → Nat → List Nat → List (List Nat) → List Nat
  | 0, _, buf, _ => buf
  | fuel + 1, n, buf, chunks =>
    if buf.length < n then
      if 0 < ((chunks.headD []).take (n - buf.length)).length then
        readLoop fuel n (bufferConcat buf ((chunks.headD []).take (n - buf.length))) chunks.tail
      else readLoop fuel n buf chunks.tail
    else buf

/-- readBytesWithTimeout from the source: run the bounded accumulation
loop starting from an empty buffer and return null when nothing at all
was received. -/
def readBytesWithTimeout (fuel n : Nat) (chunks : List (List Nat)) : Option (List Nat) :=
  let buf := readLoop fuel n [] chunks
  if buf.length = 0 then none else some buf

/-- The readback acceptance test used by applyConfig and readConfig:
a response is valid when present, at least 6 bytes long, and headed by
0xC0. -/
def respOkC0 : Option (List Nat) → Bool
  | none => false
  | some r => decide (6 ≤ r.length) && decide (r.getD 0 0 = 0xC0)

/-- The echo acceptance test of the v2 applyConfig: present, at least
6 bytes, and headed by 0xC0 or 0xC2. -/
def echoOk : Option (List Nat) → Bool
  | none => false
  | some r => decide (6 ≤ r.length) && (decide (r.getD 0 0 = 0xC0) || decide (r.getD 0 0 = 0xC2))

/-- sendString from the source, as a function of the driver state it
reads (_fixedMode, _useLineMode, _lastCfg).  The result is the pair of
the header bytes written (empty in transparent mode) and the string
written after them. -/
def sendString (fixedMode useLineMode : Bool) (lastCfg : Option (List Nat))
    (msg : String) : List Nat × String :=
  let msg := if useLineMode then msg ++ "\n" else msg
  let hdr : List Nat :=
    if fixedMode then
      match lastCfg with
      | some c =>
        if 3 ≤ c.length then [c.getD 0 0, c.getD 1 0, c.getD 2 0]
        else [0x00, 0x00, 0x17]
      | none => [0x00, 0x00, 0x17]
    else []
  (hdr, msg)

/-- Receiver registration state: the current user handler (identified by
a number), whether the physical serial listener was installed, and how
many physical listeners have been installed in total. -/
structure RxState where
  rxHandler : Option Nat
  receiverInstalled : Bool
  installedCount : Nat
  deriving DecidableEq

/-- installReceiverOnce from the source: installs the physical
serial.onDataReceived listener only when none was installed yet. -/
def installReceiverOnce (s : RxState) : RxState :=
  if s.receiverInstalled then s
  else { s with receiverInstalled := true, installedCount := s.installedCount + 1 }

/-- onReceiveString from the source: store the handler, then install the
physical listener at most once. -/
def onReceiveString (h : Nat) (s : RxState) : RxState :=
  installReceiverOnce { s with rxHandler := some h }

/-- One newline-delimited input line arriving: every installed physical
listener fires once and each invokes the current handler when one is
set.  The result lists the handler invocations this line causes. -/
def fireLine (s : RxState) : List Nat :=
  match s.rxHandler with
  | some h => List.replicate s.installedCount h
  | none => []

/-- Well-formedness of the receiver state: the number of installed
physical listeners is 1 when the guard flag is set and 0 otherwise.
Holds for the initial state and is preserved by the operations. -/
def receiverWF (s : RxState) : Prop :=
  s.installedCount = if s.receiverInstalled then 1 else 0

namespace cansat

/-- Driver state of the first variant: module-level mutable variables of
src/main.ts plus the levels driven onto the two mode-select pins and the
trace of buffers written to the serial port. -/
structure St where
  inited : Bool
  m0 : Nat
  m1 : Nat
  lastCfg : Option (List Nat)
  currentUart : Nat
  lastError : String
  cfgOk : Bool
  stage : Nat
  trace : List (List Nat)
  deriving DecidableEq

/-- Hardware environment of one v1 transaction: the outcomes of the
waitAuxHigh polls whose result the code inspects (entering config mode,
after the parameter write, after the read command) and the serial input
seen by the verification read. -/
structure Env where
  enterAux : Bool
  writeAux : Bool
  readAux : Bool
  fuel : Nat
  chunks : List (List Nat)

/-- finishFailSafe from v1: guarantee a non-empty error whenever
configOk is false. -/
def finishFailSafe (s : St) : St :=
  if s.cfgOk = false ∧ s.lastError = "" then
    { s with lastError := "Failed (stage " ++ toString s.stage ++ ")" }
  else s

/-- setWorkModeNormal from v1: drive both mode-select lines low (the
pause, best-effort AUX wait and serial.redirect have no modelled
state). -/
def setWorkModeNormal (s : St) : St :=
  { s with m0 := 0, m1 := 0 }

/-- exitConfigMode from v1. -/
def exitConfigMode (s : St) : St :=
  setWorkModeNormal s

/-- enterConfigMode from v1: drive both mode-select lines high, then
poll AUX; on timeout record the error and report failure. -/
def enterConfigMode (auxOk : Bool) (s : St) : Bool × St :=
  let s1 : St := { s with m0 := 1, m1 := 1 }
  if auxOk then (true, s1)
  else (false, { s1 with lastError := "Timeout entering config mode (AUX)" })

/-- init from v1: lines low, normal mode, status cleared.  The AUX wait
outcome is ignored by the code; installReceiverOnce acts on the
separately modelled RxState. -/
def init (s : St) : St :=
  if s.inited then s
  else
    let s1 : St := { s with m0 := 0, m1 := 0, currentUart := 3 }
    let s2 := setWorkModeNormal s1
    { s2 with inited := true, lastError := "", cfgOk := true, stage := 0 }

/-- ensureInit from v1. -/
def ensureInit (s : St) : St :=
  if s.inited then s else init s

/-- The common opening of applyConfig and readConfig: ensureInit, clear
lastError, clear configOk, set the debug stage. -/
def beginTxn (stage : Nat) (s : St) : St :=
  let s1 := ensureInit s
  { s1 with lastError := "", cfgOk := false, stage := stage }

/-- readParamsWhileInConfigMode from v1: write the 0xC1 read command,
wait for AUX, then do the bounded accumulation read; null (with an error
recorded when none is pending) when AUX times out or nothing arrives. -/
def readParamsWhileInConfigMode (auxOk : Bool) (fuel : Nat) (chunks : List (List Nat))
    (s : St) : Option (List Nat) × St :=
  let s1 : St := { s with trace := s.trace ++ [[0xC1, 0xC1, 0xC1]] }
  if auxOk then
    match readBytesWithTimeout fuel 6 chunks with
    | none =>
      (none, if s1.lastError = "" then { s1 with lastError := "No bytes received from module" } else s1)
    | some r =>
      if r.length = 0 then
        (none, if s1.lastError = "" then { s1 with lastError := "No bytes received from module" } else s1)
      else (some r, s1)
  else
    (none, if s1.lastError = "" then { s1 with lastError := "Timeout waiting AUX after read cmd" } else s1)

/-- applyConfig from v1: enter config mode, write the 6-byte frame, wait
for AUX, verify by reading parameters back, exit config mode, and adopt
the readback as the cache on success. -/
def applyConfig (addh addl ch p uart parity air mode : Nat) (env : Env) (s : St) : St :=
  let s0 := beginTxn 10 s
  let sped := packSpeedByte parity uart air
  let opt := packOptionByte p mode
  let s1 : St := { s0 with stage := 11 }
  let es := enterConfigMode env.enterAux s1
  if es.1 then
    let s2 : St := { es.2 with stage := 12, trace := es.2.trace ++ [buildWriteFrame addh addl ch sped opt] }
    let s3 : St := { s2 with stage := 13 }
    if env.writeAux then
      let s4 : St := { s3 with stage := 14 }
      let pr := readParamsWhileInConfigMode env.readAux env.fuel env.chunks s4
      let s5 := exitConfigMode pr.2
      if respOkC0 pr.1 then
        { s5 with lastCfg := some (((pr.1.getD []).drop 1).take 5), cfgOk := true,
                  currentUart := uart, stage := 0 }
      else
        let s6 : St := { s5 with cfgOk := false }
        let s7 := if s6.lastError = "" then { s6 with lastError := "applyConfig: write done but no readback" } else s6
        finishFailSafe s7
    else
      finishFailSafe (exitConfigMode { s3 with lastError := "applyConfig: AUX timeout after write" })
  else
    let s2 := if es.2.lastError = "" then { es.2 with lastError := "applyConfig: enter config mode failed" } else es.2
    finishFailSafe (exitConfigMode s2)

/-- readConfig from v1: enter config mode, read parameters back, exit
config mode, then validate length and the 0xC0 header before caching. -/
def readConfig (env : Env) (s : St) : St :=
  let s0 := beginTxn 20 s
  let s1 : St := { s0 with stage := 21 }
  let es := enterConfigMode env.enterAux s1
  if es.1 then
    let pr := readParamsWhileInConfigMode env.readAux env.fuel env.chunks { es.2 with stage := 22 }
    let s3 : St := { exitConfigMode pr.2 with stage := 23 }
    match pr.1 with
    | none =>
      finishFailSafe (if s3.lastError = "" then { s3 with lastError := "readConfig: no/short response" } else s3)
    | some r =>
      if r.length < 6 then
        finishFailSafe (if s3.lastError = "" then { s3 with lastError := "readConfig: no/short response" } else s3)
      else if r.getD 0 0 = 0xC0 then
        { s3 with lastCfg := some ((r.drop 1).take 5), cfgOk := true, stage := 0 }
      else
        finishFailSafe { s3 with
          cfgOk := false,
          lastError := "readConfig: unexpected header " ++ toString (r.getD 0 0) }
  else
    let s2 := if es.2.lastError = "" then { es.2 with lastError := "readConfig: enter config mode failed" } else es.2
    finishFailSafe (exitConfigMode s2)

end cansat

namespace cansat2

/-- Driver state of the second variant (no debug stage counter). -/
structure St where
  inited : Bool
  m0 : Nat
  m1 : Nat
  lastCfg : Option (List Nat)
  currentUart : Nat
  lastError : String
  cfgOk : Bool
  trace : List (List Nat)
  deriving DecidableEq

/-- Hardware environment of one v2 transaction: AUX poll outcomes plus
separate serial input for the optional echo read and for the parameter
readback. -/
structure Env where
  enterAux : Bool
  writeAux : Bool
  readAux : Bool
  echoFuel : Nat
  echoChunks : List (List Nat)
  rbFuel : Nat
  rbChunks : List (List Nat)

/-- setWorkModeNormal from v2: drive both mode-select lines low. -/
def setWorkModeNormal (s : St) : St :=
  { s with m0 := 0, m1 := 0 }

/-- exitConfigMode from v2. -/
def exitConfigMode (s : St) : St :=
  setWorkModeNormal s

/-- enterConfigMode from v2: lines high, poll AUX, record the timeout
error on failure. -/
def enterConfigMode (auxOk : Bool) (s : St) : Bool × St :=
  let s1 : St := { s with m0 := 1, m1 := 1 }
  if auxOk then (true, s1)
  else (false, { s1 with lastError := "Timeout entering config mode (AUX)" })

/-- init from v2. -/
def init (s : St) : St :=
  if s.inited then s
  else
    let s1 : St := { s with m0 := 0, m1 := 0, currentUart := 3 }
    let s2 := setWorkModeNormal s1
    { s2 with inited := true, lastError := "", cfgOk := true }

/-- ensureInit from v2. -/
def ensureInit (s : St) : St :=
  if s.inited then s else init s

/-- cacheCfg from v2: overwrite the cache with the five given bytes. -/
def cacheCfg (addh addl ch sped opt : Nat) (s : St) : St :=
  { s with lastCfg := some [addh, addl, ch, sped, opt] }

/-- readParamsWhileInConfigMode from v2: write the 0xC1 read command,
wait for AUX, then return the bounded accumulation read directly (no
emptiness check here, unlike v1). -/
def readParamsWhileInConfigMode (auxOk : Bool) (fuel : Nat) (chunks : List (List Nat))
    (s : St) : Option (List Nat) × St :=
  let s1 : St := { s with trace := s.trace ++ [[0xC1, 0xC1, 0xC1]] }
  if auxOk then (readBytesWithTimeout fuel 6 chunks, s1)
  else
    (none, if s1.lastError = "" then { s1 with lastError := "Timeout waiting AUX after read cmd" } else s1)

/-- applyConfig from v2: like v1 but it first captures a raw echo of the
write, caches the attempted bytes unconditionally after exiting config
mode, and accepts a plausible echo (header 0xC0 or 0xC2) as a degraded
success when no valid readback arrived. -/
def applyConfig (addh addl ch p uart parity air mode : Nat) (env : Env) (s : St) : St :=
  let s0 := ensureInit s
  let s0 : St := { s0 with lastError := "", cfgOk := false }
  let sped := packSpeedByte parity uart air
  let opt := packOptionByte p mode
  let es := enterConfigMode env.enterAux s0
  if es.1 then
    let s2 : St := { es.2 with trace := es.2.trace ++ [buildWriteFrame addh addl ch sped opt] }
    if env.writeAux then
      let echo := readBytesWithTimeout env.echoFuel 6 env.echoChunks
      let pr := readParamsWhileInConfigMode env.readAux env.rbFuel env.rbChunks s2
      let s3 := exitConfigMode pr.2
      let s4 := cacheCfg (addh &&& 0xff) (addl &&& 0xff) (ch &&& 0xff) (sped &&& 0xff) (opt &&& 0xff) s3
      if respOkC0 pr.1 then
        { s4 with lastCfg := some (((pr.1.getD []).drop 1).take 5), cfgOk := true,
                  currentUart := uart }
      else if echoOk echo then
        { s4 with cfgOk := true, lastError := "No readback; echo ok (likely configured)",
                  currentUart := uart }
      else
        let s5 : St := { s4 with cfgOk := false }
        if s5.lastError = "" then { s5 with lastError := "Config write failed (no echo, no readback)" } else s5
    else
      exitConfigMode { s2 with lastError := "Timeout waiting AUX after write" }
  else
    exitConfigMode (if es.2.lastError = "" then { es.2 with lastError := "Failed to enter config mode" } else es.2)

/-- readConfig from v2: enter config mode, read parameters, exit, then
validate length and the 0xC0 header before caching. -/
def readConfig (env : Env) (s : St) : St :=
  let s0 := ensureInit s
  let s0 : St := { s0 with lastError := "", cfgOk := false }
  let es := enterConfigMode env.enterAux s0
  if es.1 then
    let pr := readParamsWhileInConfigMode env.readAux env.rbFuel env.rbChunks es.2
    let s3 := exitConfigMode pr.2
    match pr.1 with
    | none => { s3 with lastError := "No/short config response" }
    | some r =>
      if r.length < 6 then { s3 with lastError := "No/short config response" }
      else if r.getD 0 0 = 0xC0 then
        { s3 with lastCfg := some ((r.drop 1).take 5), cfgOk := true }
      else
        { s3 with lastError := "Unexpected config header: " ++ toString (r.getD 0 0) }
  else
    exitConfigMode (if es.2.lastError = "" then { es.2 with lastError := "Failed to enter config mode" } else es.2)

end cansat2

/-- A baseline initialized v1 driver state used in concrete runs. -/
def st1 : cansat.St :=
  { inited := true, m0 := 0, m1 := 0, lastCfg := some [9, 9, 9, 9, 9],
    currentUart := 3, lastError := "", cfgOk := false, stage := 0, trace := [] }

/-- A baseline initialized v2 driver state used in concrete runs. -/
def st2 : cansat2.St :=
  { inited := true, m0 := 0, m1 := 0, lastCfg := some [9, 9, 9, 9, 9],
    currentUart := 3, lastError := "", cfgOk := false, trace := [] }

/-- v1 environment in which entering config mode times out. -/
def envEnterFail : cansat.Env :=
  { enterAux := false, writeAux := true, readAux := true, fuel := 0, chunks := [] }

/-- v1 environment delivering a 6-byte response with header 0xC2. -/
def envC2Resp : cansat.Env :=
  { enterAux := true, writeAux := true, readAux := true, fuel := 1,
    chunks := [[0xC2, 1, 2, 3, 4, 5]] }

/-- v1 environment delivering a valid 6-byte response with header 0xC0. -/
def envC0Resp : cansat.Env :=
  { enterAux := true, writeAux := true, readAux := true, fuel := 1,
    chunks := [[0xC0, 1, 2, 3, 4, 5]] }

/-- v2 environment: everything succeeds up to the parameter write, then
neither echo bytes nor readback bytes ever arrive. -/
def env2NoResp : cansat2.Env :=
  { enterAux := true, writeAux := true, readAux := true,
    echoFuel := 0, echoChunks := [], rbFuel := 0, rbChunks := [] }

/-- v2 environment: AUX never rises after the read command, but the echo
read captured a 0xC2-headed 6-byte frame. -/
def env2EchoOnly : cansat2.Env :=
  { enterAux := true, writeAux := true, readAux := false,
    echoFuel := 1, echoChunks := [[0xC2, 0, 0, 23, 25, 0]], rbFuel := 0, rbChunks := [] }

/-- A string with a non-empty left part stays non-empty under append. -/
theorem append_ne_empty (s t : String) (h : s ≠ "") : s ++ t ≠ "" := by
  intro he
  apply h
  have hd : s.data ++ t.data = ([] : List Char) := by
    have h2 : (s ++ t).data = ("" : String).data := congrArg String.data he
    simpa [String.data_append] using h2
  have h3 : s.data = [] := (List.append_eq_nil.mp hd).1
  cases s
  simp only at h3
  simp [h3]

@[simp] theorem cansat_exitConfigMode_m0 (s : cansat.St) : (cansat.exitConfigMode s).m0 = 0 := rfl

@[simp] theorem cansat_exitConfigMode_m1 (s : cansat.St) : (cansat.exitConfigMode s).m1 = 0 := rfl

@[simp] theorem cansat_exitConfigMode_lastError (s : cansat.St) :
    (cansat.exitConfigMode s).lastError = s.lastError := rfl

@[simp] theorem cansat_exitConfigMode_cfgOk (s : cansat.St) :
    (cansat.exitConfigMode s).cfgOk = s.cfgOk := rfl

@[simp] theorem cansat_exitConfigMode_lastCfg (s : cansat.St) :
    (cansat.exitConfigMode s).lastCfg = s.lastCfg := rfl

@[simp] theorem cansat_exitConfigMode_stage (s : cansat.St) :
    (cansat.exitConfigMode s).stage = s.stage := rfl

@[simp] theorem cansat_finishFailSafe_m0 (s : cansat.St) :
    (cansat.finishFailSafe s).m0 = s.m0 := by
  unfold cansat.finishFailSafe; split <;> rfl

@[simp] theorem cansat_finishFailSafe_m1 (s : cansat.St) :
    (cansat.finishFailSafe s).m1 = s.m1 := by
  unfold cansat.finishFailSafe; split <;> rfl

@[simp] theorem cansat_finishFailSafe_cfgOk (s : cansat.St) :
    (cansat.finishFailSafe s).cfgOk = s.cfgOk := by
  unfold cansat.finishFailSafe; split <;> rfl

@[simp] theorem cansat_finishFailSafe_lastCfg (s : cansat.St) :
    (cansat.finishFailSafe s).lastCfg = s.lastCfg := by
  unfold cansat.finishFailSafe; split <;> rfl

theorem cansat_finishFailSafe_lastError_ne (s : cansat.St) (h : s.lastError ≠ "") :
    (cansat.finishFailSafe s).lastError = s.lastError := by
  unfold cansat.finishFailSafe
  rw [if_neg]
  intro hc
  exact h hc.2

@[simp] theorem cansat_beginTxn_cfgOk (n : Nat) (s : cansat.St) :
    (cansat.beginTxn n s).cfgOk = false := rfl

@[simp] theorem cansat_beginTxn_lastError (n : Nat) (s : cansat.St) :
    (cansat.beginTxn n s).lastError = "" := rfl

@[simp] theorem cansat_beginTxn_lastCfg (n : Nat) (s : cansat.St) :
    (cansat.beginTxn n s).lastCfg = s.lastCfg := by
  unfold cansat.beginTxn cansat.ensureInit cansat.init cansat.setWorkModeNormal
  by_cases h : s.inited <;> simp [h]

/-- beginTxn erases whatever lastError and configOk held before: the
transaction result cannot depend on them. -/
theorem cansat_beginTxn_reset (n : Nat) (s : cansat.St) (e : String) (c : Bool) :
    cansat.beginTxn n { s with lastError := e, cfgOk := c } = cansat.beginTxn n s := by
  rcases s with ⟨i, a0, a1, lc, cu, le, ok, st, tr⟩
  cases i <;> rfl

/-- The accumulated buffer never exceeds the requested count: every poll
requests only the missing remainder. -/
theorem readLoop_length_le (fuel : Nat) :
    ∀ (n : Nat) (buf : List Nat) (chunks : List (List Nat)),
      buf.length ≤ n → (readLoop fuel n buf chunks).length ≤ n := by
  induction fuel with
  | zero => intro n buf chunks h; simpa [readLoop] using h
  | succ fuel ih =>
    intro n buf chunks h
    rw [readLoop]
    by_cases hlt : buf.length < n
    · rw [if_pos hlt]
      by_cases hpos : 0 < ((chunks.headD []).take (n - buf.length)).length
      · rw [if_pos hpos]
        apply ih
        have hb : ((chunks.headD []).take (n - buf.length)).length ≤ n - buf.length :=
          le_trans (List.length_take_le _ _) (le_refl _)
        simp only [bufferConcat, List.length_append]
        omega
      · rw [if_neg hpos]
        exact ih n buf chunks.tail h
    · rw [if_neg hlt]
      exact h

/-- C10: the bounded-accumulation read returns null exactly when zero
bytes were accumulated, and otherwise a buffer of at least 1 and at most
n bytes: each poll asks only for the remaining count. -/
theorem c10_read_bounds (fuel n : Nat) (chunks : List (List Nat)) :
    (readBytesWithTimeout fuel n chunks = none ↔ readLoop fuel n [] chunks = [])
    ∧ ∀ b, readBytesWithTimeout fuel n chunks = some b → 1 ≤ b.length ∧ b.length ≤ n := by
  constructor
  · unfold readBytesWithTimeout
    by_cases h : (readLoop fuel n [] chunks).length = 0
    · simp [h, List.length_eq_zero.mp h]
    · simp only [h, if_neg h]
      constructor
      · intro hc; exact absurd hc (by simp)
      · intro hc; exact absurd (congrArg List.length hc) (by simpa using h)
  · intro b hb
    unfold readBytesWithTimeout at hb
    by_cases h : (readLoop fuel n [] chunks).length = 0
    · simp [h] at hb
    · rw [if_neg h] at hb
      have hb' : readLoop fuel n [] chunks = b := by
        exact Option.some.inj hb
      constructor
      · rw [← hb']; omega
      · rw [← hb']
        exact readLoop_length_le fuel n [] chunks (by simp)

/-- C10 witness: a concrete run returning three of six requested bytes. -/
theorem c10_read_bounds_witness :
    1 ≤ ([1, 2, 3] : List Nat).length ∧ ([1, 2, 3] : List Nat).length ≤ 6 :=
  (c10_read_bounds 2 6 [[1, 2, 3]]).2 [1, 2, 3] (by decide)

/-- C5: for valid field values (parity 0-2, uartBaud 0-7, airDataRate
0-5, power 0-3, txMode 0-1) the speed byte holds parity in bits 7-6,
uartBaud in bits 5-3 and airDataRate in bits 2-0, and the option byte
holds power in bits 1-0, the Fixed flag in bit 2 and zero in all higher
bits, so both packings are lossless. -/
theorem c5_pack_roundtrip (parity uart air p mode : Nat)
    (hparity : parity < 3) (huart : uart < 8) (hair : air < 6)
    (hp : p < 4) (hmode : mode < 2) :
    (packSpeedByte parity uart air >>> 6) &&& 0x03 = parity
    ∧ (packSpeedByte parity uart air >>> 3) &&& 0x07 = uart
    ∧ packSpeedByte parity uart air &&& 0x07 = air
    ∧ packOptionByte p mode &&& 0x03 = p
    ∧ (packOptionByte p mode >>> 2) &&& 0x01 = (if mode = 1 then 1 else 0)
    ∧ packOptionByte p mode >>> 3 = 0 := by
  have H : ∀ (a : Fin 3) (b : Fin 8) (c : Fin 6) (d : Fin 4) (e : Fin 2),
      (packSpeedByte a.val b.val c.val >>> 6) &&& 0x03 = a.val
      ∧ (packSpeedByte a.val b.val c.val >>> 3) &&& 0x07 = b.val
      ∧ packSpeedByte a.val b.val c.val &&& 0x07 = c.val
      ∧ packOptionByte d.val e.val &&& 0x03 = d.val
      ∧ (packOptionByte d.val e.val >>> 2) &&& 0x01 = (if e.val = 1 then 1 else 0)
      ∧ packOptionByte d.val e.val >>> 3 = 0 := by decide
  exact H ⟨parity, hparity⟩ ⟨uart, huart⟩ ⟨air, hair⟩ ⟨p, hp⟩ ⟨mode, hmode⟩

/-- C5 witness: parity 1, uart 3 (9600), air 1 (1.2 kbps), power 2,
fixed mode. -/
theorem c5_pack_roundtrip_witness :
    (packSpeedByte 1 3 1 >>> 6) &&& 0x03 = 1
    ∧ (packSpeedByte 1 3 1 >>> 3) &&& 0x07 = 3
    ∧ packSpeedByte 1 3 1 &&& 0x07 = 1
    ∧ packOptionByte 2 1 &&& 0x03 = 2
    ∧ (packOptionByte 2 1 >>> 2) &&& 0x01 = (if (1 : Nat) = 1 then 1 else 0)
    ∧ packOptionByte 2 1 >>> 3 = 0 :=
  c5_pack_roundtrip 1 3 1 2 1 (by decide) (by decide) (by decide) (by decide) (by decide)

/-- C9: out-of-range inputs are masked to their field widths, never an
error: uartBaud 9 packs as 9 and 7 = 1, and parity, airDataRate, power
and the address and channel bytes are likewise masked before packing. -/
theorem c9_masking (parity uart air p mode addh addl ch sped opt : Nat) :
    (packSpeedByte parity 9 air >>> 3) &&& 0x07 = 1
    ∧ 9 &&& 0x07 = 1
    ∧ packSpeedByte parity uart air = packSpeedByte (parity &&& 0x03) (uart &&& 0x07) (air &&& 0x07)
    ∧ packOptionByte p mode = packOptionByte (p &&& 0x03) mode
    ∧ buildWriteFrame addh addl ch sped opt
      = buildWriteFrame (addh &&& 0xff) (addl &&& 0xff) (ch &&& 0xff) (sped &&& 0xff) (opt &&& 0xff) := by
  refine ⟨?_, by decide, ?_, ?_, ?_⟩
  · have H : ∀ (x : Fin 4) (y : Fin 8),
        (((x.val <<< 6) ||| (1 <<< 3) ||| y.val) >>> 3) &&& 0x07 = 1 := by decide
    have hx : parity &&& 0x03 < 4 := Nat.lt_succ_of_le Nat.and_le_right
    have hy : air &&& 0x07 < 8 := Nat.lt_succ_of_le Nat.and_le_right
    have e : packSpeedByte parity 9 air
        = ((parity &&& 0x03) <<< 6) ||| (1 <<< 3) ||| (air &&& 0x07) := by
      simp [packSpeedByte, (by decide : (9 : Nat) &&& 0x07 = 1)]
    rw [e]
    exact H ⟨parity &&& 0x03, hx⟩ ⟨air &&& 0x07, hy⟩
  · simp [packSpeedByte, Nat.and_assoc]
  · simp [packOptionByte, Nat.and_assoc]
  · simp [buildWriteFrame, Nat.and_assoc]

/-- C7: registering a receive handler twice installs only one physical
listener and a delivered line invokes only the most recent handler,
exactly once. -/
theorem c7_receiver_idempotent (s : RxState) (h1 h2 : Nat) (hwf : receiverWF s) :
    receiverWF (onReceiveString h1 s)
    ∧ (onReceiveString h2 (onReceiveString h1 s)).installedCount = 1
    ∧ (onReceiveString h2 (onReceiveString h1 s)).rxHandler = some h2
    ∧ fireLine (onReceiveString h2 (onReceiveString h1 s)) = [h2] := by
  rcases s with ⟨rh, ri, ic⟩
  unfold receiverWF at hwf
  cases ri <;>
    simp_all [receiverWF, onReceiveString, installReceiverOnce, fireLine]

/-- C7 witness: two registrations from the fresh state deliver one line
to the second handler only. -/
theorem c7_receiver_idempotent_witness :
    fireLine (onReceiveString 2 (onReceiveString 1 ⟨none, false, 0⟩)) = [2] :=
  (c7_receiver_idempotent ⟨none, false, 0⟩ 1 2 rfl).2.2.2

/-- C8: in Fixed mode sendString writes the 3-byte header taken from the
first three cached bytes when at least three are cached, otherwise the
default 0, 0, 0x17; then the text, with a newline appended when line
framing is on; Transparent mode writes no header. -/
theorem c8_send_fixed_header (ul : Bool) (c : List Nat) (cache : Option (List Nat)) (msg : String) :
    (3 ≤ c.length →
      sendString true ul (some c) msg = (c.take 3, if ul then msg ++ "\n" else msg))
    ∧ sendString true ul none msg = ([0x00, 0x00, 0x17], if ul then msg ++ "\n" else msg)
    ∧ (c.length < 3 →
      sendString true ul (some c) msg = ([0x00, 0x00, 0x17], if ul then msg ++ "\n" else msg))
    ∧ sendString false ul cache msg = ([], if ul then msg ++ "\n" else msg) := by
  refine ⟨?_, by simp [sendString], ?_, by simp [sendString]⟩
  · intro h
    rcases c with _ | ⟨a, c⟩
    · simp at h
    rcases c with _ | ⟨b, c⟩
    · simp at h
    rcases c with _ | ⟨d, c⟩
    · simp at h
    · simp [sendString]
  · intro h
    have : ¬ 3 ≤ c.length := by omega
    simp [sendString, this]

/-- C8 witness: the spec scenario, Fixed mode, cache 5 6 7, line framing
on, message hi. -/
theorem c8_send_fixed_header_witness :
    sendString true true (some [5, 6, 7, 0, 0]) "hi" = ([5, 6, 7], "hi\n") :=
  ((c8_send_fixed_header true [5, 6, 7, 0, 0] none "hi").1 (by decide)).trans (by decide)

/-- readParamsWhileInConfigMode error discipline (v1): starting with no
pending error, a null result leaves a non-empty error, and a non-null
result leaves the error empty. -/
theorem cansat_readParams_error (a : Bool) (f : Nat) (c : List (List Nat)) (s : cansat.St)
    (h : s.lastError = "") :
    ((cansat.readParamsWhileInConfigMode a f c s).1 = none →
      (cansat.readParamsWhileInConfigMode a f c s).2.lastError ≠ "")
    ∧ (∀ r, (cansat.readParamsWhileInConfigMode a f c s).1 = some r →
      (cansat.readParamsWhileInConfigMode a f c s).2.lastError = "") := by
  unfold cansat.readParamsWhileInConfigMode
  cases a
  · simp [h]
  · cases hr : readBytesWithTimeout f 6 c
    · simp [hr, h]
    · rename_i r
      by_cases hl : r.length = 0 <;> simp [hr, hl, h]


/-- One traversal of the v1 applyConfig control flow: the mode-select
lines end at the Normal level, and the call either reports success or
leaves a non-empty error with the cached configuration untouched. -/
theorem cansat_applyConfig_cases (addh addl ch p uart parity air mode : Nat)
    (env : cansat.Env) (s : cansat.St) :
    ((cansat.applyConfig addh addl ch p uart parity air mode env s).m0 = 0
      ∧ (cansat.applyConfig addh addl ch p uart parity air mode env s).m1 = 0)
    ∧ ((cansat.applyConfig addh addl ch p uart parity air mode env s).cfgOk = true
      ∨ ((cansat.applyConfig addh addl ch p uart parity air mode env s).lastError ≠ ""
        ∧ (cansat.applyConfig addh addl ch p uart parity air mode env s).lastCfg = s.lastCfg)) := by
  unfold cansat.applyConfig
  cases henter : env.enterAux
  · simp [henter, cansat.enterConfigMode, cansat.exitConfigMode, cansat.setWorkModeNormal,
      cansat.finishFailSafe]
  · cases hwrite : env.writeAux
    · simp [henter, hwrite, cansat.enterConfigMode, cansat.exitConfigMode,
        cansat.setWorkModeNormal, cansat.finishFailSafe]
    · cases hread : env.readAux
      · simp [henter, hwrite, hread, respOkC0, cansat.enterConfigMode, cansat.exitConfigMode,
          cansat.setWorkModeNormal, cansat.finishFailSafe, cansat.readParamsWhileInConfigMode]
      · cases hr : readBytesWithTimeout env.fuel 6 env.chunks
        · simp [henter, hwrite, hread, hr, respOkC0, cansat.enterConfigMode,
            cansat.exitConfigMode, cansat.setWorkModeNormal, cansat.finishFailSafe,
            cansat.readParamsWhileInConfigMode]
        · rename_i r
          by_cases hl : r.length = 0
          · simp [henter, hwrite, hread, hr, hl, respOkC0, cansat.enterConfigMode,
              cansat.exitConfigMode, cansat.setWorkModeNormal, cansat.finishFailSafe,
              cansat.readParamsWhileInConfigMode]
          · cases hok : respOkC0 (some r)
            · simp [henter, hwrite, hread, hr, hl, hok, cansat.enterConfigMode,
                cansat.exitConfigMode, cansat.setWorkModeNormal, cansat.finishFailSafe,
                cansat.readParamsWhileInConfigMode]
            · simp [henter, hwrite, hread, hr, hl, hok, cansat.enterConfigMode,
                cansat.exitConfigMode, cansat.setWorkModeNormal,
                cansat.readParamsWhileInConfigMode]

/-- One traversal of the v1 readConfig control flow: the mode-select
lines end at the Normal level, and the call either reports success or
leaves a non-empty error with the cached configuration untouched. -/
theorem cansat_readConfig_cases (env : cansat.Env) (s : cansat.St) :
    ((cansat.readConfig env s).m0 = 0 ∧ (cansat.readConfig env s).m1 = 0)
    ∧ ((cansat.readConfig env s).cfgOk = true
      ∨ ((cansat.readConfig env s).lastError ≠ ""
        ∧ (cansat.readConfig env s).lastCfg = s.lastCfg)) := by
  unfold cansat.readConfig
  cases henter : env.enterAux
  · simp [henter, cansat.enterConfigMode, cansat.exitConfigMode, cansat.setWorkModeNormal,
      cansat.finishFailSafe]
  · cases hread : env.readAux
    · simp [henter, hread, cansat.enterConfigMode, cansat.exitConfigMode,
        cansat.setWorkModeNormal, cansat.finishFailSafe, cansat.readParamsWhileInConfigMode]
    · cases hr : readBytesWithTimeout env.fuel 6 env.chunks
      · simp [henter, hread, hr, cansat.enterConfigMode, cansat.exitConfigMode,
          cansat.setWorkModeNormal, cansat.finishFailSafe, cansat.readParamsWhileInConfigMode]
      · rename_i r
        by_cases hl : r.length = 0
        · simp [henter, hread, hr, hl, cansat.enterConfigMode, cansat.exitConfigMode,
            cansat.setWorkModeNormal, cansat.finishFailSafe, cansat.readParamsWhileInConfigMode]
        · by_cases h6 : r.length < 6
          · simp [henter, hread, hr, hl, h6, cansat.enterConfigMode, cansat.exitConfigMode,
              cansat.setWorkModeNormal, cansat.finishFailSafe, cansat.readParamsWhileInConfigMode]
          · by_cases hhdr : (r[0]?).getD 0 = 0xC0
            · simp [henter, hread, hr, hl, h6, hhdr, cansat.enterConfigMode,
                cansat.exitConfigMode, cansat.setWorkModeNormal,
                cansat.readParamsWhileInConfigMode]
            · have happ : "readConfig: unexpected header " ++ toString ((r[0]?).getD 0) ≠ "" :=
                append_ne_empty _ _ (by decide)
              simp [henter, hread, hr, hl, h6, hhdr, happ, cansat.enterConfigMode,
                cansat.exitConfigMode, cansat.setWorkModeNormal, cansat.finishFailSafe,
                cansat.readParamsWhileInConfigMode]

@[simp] theorem cansat2_ensureInit_lastCfg (s : cansat2.St) :
    (cansat2.ensureInit s).lastCfg = s.lastCfg := by
  unfold cansat2.ensureInit cansat2.init cansat2.setWorkModeNormal
  split <;> rfl

/-- One traversal of the v2 applyConfig control flow: the mode-select
lines end at the Normal level, and a failure before the parameter write
completes leaves the cached configuration untouched. -/
theorem cansat2_applyConfig_cases (addh addl ch p uart parity air mode : Nat)
    (env : cansat2.Env) (s : cansat2.St) :
    ((cansat2.applyConfig addh addl ch p uart parity air mode env s).m0 = 0
      ∧ (cansat2.applyConfig addh addl ch p uart parity air mode env s).m1 = 0)
    ∧ (env.enterAux = false →
      (cansat2.applyConfig addh addl ch p uart parity air mode env s).lastCfg = s.lastCfg)
    ∧ (env.writeAux = false →
      (cansat2.applyConfig addh addl ch p uart parity air mode env s).lastCfg = s.lastCfg) := by
  unfold cansat2.applyConfig
  cases henter : env.enterAux
  · simp [henter, cansat2.enterConfigMode, cansat2.exitConfigMode, cansat2.setWorkModeNormal]
  · cases hwrite : env.writeAux
    · simp [henter, hwrite, cansat2.enterConfigMode, cansat2.exitConfigMode,
        cansat2.setWorkModeNormal]
    · cases hread : env.readAux
      · cases hecho : echoOk (readBytesWithTimeout env.echoFuel 6 env.echoChunks)
        · simp [henter, hwrite, hread, hecho, respOkC0, cansat2.enterConfigMode,
            cansat2.exitConfigMode, cansat2.setWorkModeNormal, cansat2.cacheCfg,
            cansat2.readParamsWhileInConfigMode]
        · simp [henter, hwrite, hread, hecho, respOkC0, cansat2.enterConfigMode,
            cansat2.exitConfigMode, cansat2.setWorkModeNormal, cansat2.cacheCfg,
            cansat2.readParamsWhileInConfigMode]
      · cases hok : respOkC0 (readBytesWithTimeout env.rbFuel 6 env.rbChunks)
        · cases hecho : echoOk (readBytesWithTimeout env.echoFuel 6 env.echoChunks)
          · simp [henter, hwrite, hread, hok, hecho, cansat2.enterConfigMode,
              cansat2.exitConfigMode, cansat2.setWorkModeNormal, cansat2.cacheCfg,
              cansat2.readParamsWhileInConfigMode]
          · simp [henter, hwrite, hread, hok, hecho, cansat2.enterConfigMode,
              cansat2.exitConfigMode, cansat2.setWorkModeNormal, cansat2.cacheCfg,
              cansat2.readParamsWhileInConfigMode]
        · simp [henter, hwrite, hread, hok, cansat2.enterConfigMode,
            cansat2.exitConfigMode, cansat2.setWorkModeNormal, cansat2.cacheCfg,
            cansat2.readParamsWhileInConfigMode]

/-- One traversal of the v2 readConfig control flow: the mode-select
lines end at the Normal level. -/
theorem cansat2_readConfig_pins (env : cansat2.Env) (s : cansat2.St) :
    (cansat2.readConfig env s).m0 = 0 ∧ (cansat2.readConfig env s).m1 = 0 := by
  unfold cansat2.readConfig
  cases henter : env.enterAux
  · simp [henter, cansat2.enterConfigMode, cansat2.exitConfigMode, cansat2.setWorkModeNormal]
  · cases hread : env.readAux
    · simp [henter, hread, cansat2.enterConfigMode, cansat2.exitConfigMode,
        cansat2.setWorkModeNormal, cansat2.readParamsWhileInConfigMode]
    · cases hr : readBytesWithTimeout env.rbFuel 6 env.rbChunks
      · simp [henter, hread, hr, cansat2.enterConfigMode, cansat2.exitConfigMode,
          cansat2.setWorkModeNormal, cansat2.readParamsWhileInConfigMode]
      · rename_i r
        by_cases h6 : r.length < 6
        · simp [henter, hread, hr, h6, cansat2.enterConfigMode, cansat2.exitConfigMode,
            cansat2.setWorkModeNormal, cansat2.readParamsWhileInConfigMode]
        · by_cases hhdr : (r[0]?).getD 0 = 0xC0
          · simp [henter, hread, hr, h6, hhdr, cansat2.enterConfigMode, cansat2.exitConfigMode,
              cansat2.setWorkModeNormal, cansat2.readParamsWhileInConfigMode]
          · simp [henter, hread, hr, h6, hhdr, cansat2.enterConfigMode, cansat2.exitConfigMode,
              cansat2.setWorkModeNormal, cansat2.readParamsWhileInConfigMode]

/-- The v1 applyConfig result does not depend on the lastError and
configOk values left by earlier calls. -/
theorem cansat_applyConfig_reset (addh addl ch p uart parity air mode : Nat)
    (env : cansat.Env) (s : cansat.St) (e : String) (c : Bool) :
    cansat.applyConfig addh addl ch p uart parity air mode env { s with lastError := e, cfgOk := c }
      = cansat.applyConfig addh addl ch p uart parity air mode env s := by
  unfold cansat.applyConfig
  simp only [cansat_beginTxn_reset]

/-- The v1 readConfig result does not depend on the lastError and
configOk values left by earlier calls. -/
theorem cansat_readConfig_reset (env : cansat.Env) (s : cansat.St) (e : String) (c : Bool) :
    cansat.readConfig env { s with lastError := e, cfgOk := c } = cansat.readConfig env s := by
  unfold cansat.readConfig
  simp only [cansat_beginTxn_reset]

/-- C1: after every applyConfig or readConfig call that ends in failure,
lastError is non-empty while configOk is false; and each transaction
starts by resetting lastError to the empty string and configOk to false,
so its outcome is independent of their prior values. -/
theorem c1_fail_safe_invariant (addh addl ch p uart parity air mode : Nat)
    (env : cansat.Env) (s : cansat.St) (e : String) (c : Bool) :
    ((cansat.applyConfig addh addl ch p uart parity air mode env s).cfgOk = false →
      (cansat.applyConfig addh addl ch p uart parity air mode env s).lastError ≠ "")
    ∧ ((cansat.readConfig env s).cfgOk = false → (cansat.readConfig env s).lastError ≠ "")
    ∧ cansat.applyConfig addh addl ch p uart parity air mode env { s with lastError := e, cfgOk := c }
      = cansat.applyConfig addh addl ch p uart parity air mode env s
    ∧ cansat.readConfig env { s with lastError := e, cfgOk := c } = cansat.readConfig env s := by
  refine ⟨?_, ?_, cansat_applyConfig_reset addh addl ch p uart parity air mode env s e c,
    cansat_readConfig_reset env s e c⟩
  · intro h
    rcases (cansat_applyConfig_cases addh addl ch p uart parity air mode env s).2 with hok | herr
    · rw [h] at hok
      exact absurd hok (by decide)
    · exact herr.1
  · intro h
    rcases (cansat_readConfig_cases env s).2 with hok | herr
    · rw [h] at hok
      exact absurd hok (by decide)
    · exact herr.1

/-- C1 witness: entering config mode fails, the call ends unsuccessful
with a non-empty error. -/
theorem c1_fail_safe_invariant_witness :
    (cansat.applyConfig 1 2 3 0 3 0 1 0 envEnterFail st1).cfgOk = false
    ∧ (cansat.applyConfig 1 2 3 0 3 0 1 0 envEnterFail st1).lastError ≠ "" :=
  ⟨by decide, (c1_fail_safe_invariant 1 2 3 0 3 0 1 0 envEnterFail st1 "x" true).1 (by decide)⟩

/-- One traversal of the v2 readConfig control flow: the call either
reports success or leaves the cached configuration untouched (readConfig
performs no parameter write and only caches on a valid response). -/
theorem cansat2_readConfig_cache (env : cansat2.Env) (s : cansat2.St) :
    (cansat2.readConfig env s).cfgOk = true
    ∨ (cansat2.readConfig env s).lastCfg = s.lastCfg := by
  unfold cansat2.readConfig
  cases henter : env.enterAux
  · right
    simp [henter, cansat2.enterConfigMode, cansat2.exitConfigMode, cansat2.setWorkModeNormal]
  · cases hread : env.readAux
    · right
      simp [henter, hread, cansat2.enterConfigMode, cansat2.exitConfigMode,
        cansat2.setWorkModeNormal, cansat2.readParamsWhileInConfigMode]
    · cases hr : readBytesWithTimeout env.rbFuel 6 env.rbChunks
      · right
        simp [henter, hread, hr, cansat2.enterConfigMode, cansat2.exitConfigMode,
          cansat2.setWorkModeNormal, cansat2.readParamsWhileInConfigMode]
      · rename_i r
        by_cases h6 : r.length < 6
        · right
          simp [henter, hread, hr, h6, cansat2.enterConfigMode, cansat2.exitConfigMode,
            cansat2.setWorkModeNormal, cansat2.readParamsWhileInConfigMode]
        · by_cases hhdr : (r[0]?).getD 0 = 0xC0
          · left
            simp [henter, hread, hr, h6, hhdr, cansat2.enterConfigMode, cansat2.exitConfigMode,
              cansat2.setWorkModeNormal, cansat2.readParamsWhileInConfigMode]
          · right
            simp [henter, hread, hr, h6, hhdr, cansat2.enterConfigMode, cansat2.exitConfigMode,
              cansat2.setWorkModeNormal, cansat2.readParamsWhileInConfigMode]

/-- C2 amended: in the first driver variant every failing applyConfig or
readConfig call leaves the cached configuration exactly as before the
call; in the second variant every failing readConfig call and any
applyConfig failure before the parameter write completes do likewise;
but the second applyConfig overwrites the cache with the attempted bytes
once the write completed, even when the verification then fails. -/
theorem c2_cache_preserved (addh addl ch p uart parity air mode : Nat)
    (env : cansat.Env) (s : cansat.St) (env2 : cansat2.Env) (s2 : cansat2.St) :
    ((cansat.applyConfig addh addl ch p uart parity air mode env s).cfgOk = false →
      (cansat.applyConfig addh addl ch p uart parity air mode env s).lastCfg = s.lastCfg)
    ∧ ((cansat.readConfig env s).cfgOk = false → (cansat.readConfig env s).lastCfg = s.lastCfg)
    ∧ ((cansat2.readConfig env2 s2).cfgOk = false →
      (cansat2.readConfig env2 s2).lastCfg = s2.lastCfg)
    ∧ (env2.enterAux = false →
      (cansat2.applyConfig addh addl ch p uart parity air mode env2 s2).lastCfg = s2.lastCfg)
    ∧ (env2.writeAux = false →
      (cansat2.applyConfig addh addl ch p uart parity air mode env2 s2).lastCfg = s2.lastCfg) := by
  refine ⟨?_, ?_, ?_, (cansat2_applyConfig_cases addh addl ch p uart parity air mode env2 s2).2.1,
    (cansat2_applyConfig_cases addh addl ch p uart parity air mode env2 s2).2.2⟩
  · intro h
    rcases (cansat_applyConfig_cases addh addl ch p uart parity air mode env s).2 with hok | herr
    · rw [h] at hok
      exact absurd hok (by decide)
    · exact herr.2
  · intro h
    rcases (cansat_readConfig_cases env s).2 with hok | herr
    · rw [h] at hok
      exact absurd hok (by decide)
    · exact herr.2
  · intro h
    rcases cansat2_readConfig_cache env2 s2 with hok | hkeep
    · rw [h] at hok
      exact absurd hok (by decide)
    · exact hkeep

/-- C2 counterexample: a v2 applyConfig whose write goes through but
whose verification obtains neither readback nor echo ends with configOk
false, yet the cache now holds the attempted configuration bytes, not
its pre-call value. -/
theorem c2_cache_preserved_counterexample :
    (cansat2.applyConfig 1 2 3 0 3 0 1 0 env2NoResp st2).cfgOk = false
    ∧ (cansat2.applyConfig 1 2 3 0 3 0 1 0 env2NoResp st2).lastCfg ≠ st2.lastCfg
    ∧ (cansat2.applyConfig 1 2 3 0 3 0 1 0 env2NoResp st2).lastCfg = some [1, 2, 3, 25, 0] := by
  decide

/-- C2 witness: a failing v1 call leaves the cache untouched. -/
theorem c2_cache_preserved_witness :
    (cansat.applyConfig 1 2 3 0 3 0 1 0 envEnterFail st1).lastCfg = st1.lastCfg :=
  (c2_cache_preserved 1 2 3 0 3 0 1 0 envEnterFail st1 env2NoResp st2).1 (by decide)

/-- C6: every applyConfig and readConfig execution, of either variant,
ends with both mode-select lines driven back to the Normal level 0, 0,
on success and on every failure path. -/
theorem c6_mode_lines_normal (addh addl ch p uart parity air mode : Nat)
    (env : cansat.Env) (s : cansat.St) (env2 : cansat2.Env) (s2 : cansat2.St) :
    ((cansat.applyConfig addh addl ch p uart parity air mode env s).m0 = 0
      ∧ (cansat.applyConfig addh addl ch p uart parity air mode env s).m1 = 0)
    ∧ ((cansat.readConfig env s).m0 = 0 ∧ (cansat.readConfig env s).m1 = 0)
    ∧ ((cansat2.applyConfig addh addl ch p uart parity air mode env2 s2).m0 = 0
      ∧ (cansat2.applyConfig addh addl ch p uart parity air mode env2 s2).m1 = 0)
    ∧ ((cansat2.readConfig env2 s2).m0 = 0 ∧ (cansat2.readConfig env2 s2).m1 = 0) :=
  ⟨(cansat_applyConfig_cases addh addl ch p uart parity air mode env s).1,
    (cansat_readConfig_cases env s).1,
    (cansat2_applyConfig_cases addh addl ch p uart parity air mode env2 s2).1,
    cansat2_readConfig_pins env2 s2⟩

/-- C3 counterexample: a 6-byte response headed by 0xC2 is not accepted
by readConfig; it is rejected as an unexpected header with configOk
false and the cache untouched. -/
theorem c3_response_validation_counterexample :
    (cansat.readConfig envC2Resp st1).cfgOk = false
    ∧ (cansat.readConfig envC2Resp st1).lastError = "readConfig: unexpected header 194"
    ∧ (cansat.readConfig envC2Resp st1).lastCfg = st1.lastCfg := by
  decide

/-- C3 amended: a response of at least 6 bytes is accepted by readConfig
only when its first byte is 0xC0, in which case the 5 payload bytes are
cached and configOk becomes true; any other header (0xC2 included) is
rejected with an unexpected-header error, and a shorter response is
rejected as short, both with configOk false.  0xC2 is honoured only by
the v2 applyConfig echo acceptance. -/
theorem c3_response_validation (env : cansat.Env) (s : cansat.St) (r : List Nat)
    (henter : env.enterAux = true) (hread : env.readAux = true)
    (hr : readBytesWithTimeout env.fuel 6 env.chunks = some r) :
    (6 ≤ r.length ∧ (r[0]?).getD 0 = 0xC0 →
      (cansat.readConfig env s).cfgOk = true
      ∧ (cansat.readConfig env s).lastCfg = some ((r.drop 1).take 5))
    ∧ (r.length < 6 →
      (cansat.readConfig env s).cfgOk = false ∧ (cansat.readConfig env s).lastError ≠ "")
    ∧ (6 ≤ r.length ∧ (r[0]?).getD 0 ≠ 0xC0 →
      (cansat.readConfig env s).cfgOk = false
      ∧ (cansat.readConfig env s).lastError
        = "readConfig: unexpected header " ++ toString ((r[0]?).getD 0)) := by
  unfold cansat.readConfig
  by_cases hl : r.length = 0
  · refine ⟨fun hgood => absurd hgood.1 (by omega), fun _ => ?_,
      fun hbad => absurd hbad.1 (by omega)⟩
    simp [henter, hread, hr, hl, cansat.enterConfigMode, cansat.exitConfigMode,
      cansat.setWorkModeNormal, cansat.finishFailSafe, cansat.readParamsWhileInConfigMode]
  · by_cases h6 : r.length < 6
    · refine ⟨fun hgood => absurd hgood.1 (by omega), fun _ => ?_,
        fun hbad => absurd hbad.1 (by omega)⟩
      simp [henter, hread, hr, hl, h6, cansat.enterConfigMode, cansat.exitConfigMode,
        cansat.setWorkModeNormal, cansat.finishFailSafe, cansat.readParamsWhileInConfigMode]
    · by_cases hhdr : (r[0]?).getD 0 = 0xC0
      · refine ⟨fun _ => ?_, fun h => absurd h h6, fun hbad => absurd hhdr hbad.2⟩
        simp [henter, hread, hr, hl, h6, hhdr, cansat.enterConfigMode, cansat.exitConfigMode,
          cansat.setWorkModeNormal, cansat.readParamsWhileInConfigMode]
      · refine ⟨fun hgood => absurd hgood.2 hhdr, fun h => absurd h h6, fun _ => ?_⟩
        have happ : "readConfig: unexpected header " ++ toString ((r[0]?).getD 0) ≠ "" :=
          append_ne_empty _ _ (by decide)
        simp [henter, hread, hr, hl, h6, hhdr, happ, cansat.enterConfigMode,
          cansat.exitConfigMode, cansat.setWorkModeNormal, cansat.finishFailSafe,
          cansat.readParamsWhileInConfigMode]

/-- C3 witness: a valid 0xC0-headed response is accepted and its payload
cached. -/
theorem c3_response_validation_witness :
    (cansat.readConfig envC0Resp st1).cfgOk = true
    ∧ (cansat.readConfig envC0Resp st1).lastCfg = some [1, 2, 3, 4, 5] := by
  have h := (c3_response_validation envC0Resp st1 [0xC0, 1, 2, 3, 4, 5] rfl rfl (by decide)).1
    (by decide)
  exact ⟨h.1, h.2.trans (by decide)⟩

/-- C4: when the v2 applyConfig gets no valid verification readback but
the raw echo of the write has header 0xC0 or 0xC2, it reports degraded
success: configOk true with a non-empty advisory lastError. -/
theorem c4_degraded_echo (addh addl ch p uart parity air mode : Nat)
    (env : cansat2.Env) (s : cansat2.St)
    (henter : env.enterAux = true) (hwrite : env.writeAux = true)
    (hrb : respOkC0 (if env.readAux then readBytesWithTimeout env.rbFuel 6 env.rbChunks
      else none) = false)
    (hecho : echoOk (readBytesWithTimeout env.echoFuel 6 env.echoChunks) = true) :
    (cansat2.applyConfig addh addl ch p uart parity air mode env s).cfgOk = true
    ∧ (cansat2.applyConfig addh addl ch p uart parity air mode env s).lastError
      = "No readback; echo ok (likely configured)"
    ∧ (cansat2.applyConfig addh addl ch p uart parity air mode env s).lastError ≠ "" := by
  unfold cansat2.applyConfig
  cases hread : env.readAux
  · simp [henter, hwrite, hread, hecho, respOkC0, cansat2.enterConfigMode,
      cansat2.exitConfigMode, cansat2.setWorkModeNormal, cansat2.cacheCfg,
      cansat2.readParamsWhileInConfigMode]
  · rw [hread] at hrb
    simp at hrb
    simp [henter, hwrite, hread, hrb, hecho, cansat2.enterConfigMode,
      cansat2.exitConfigMode, cansat2.setWorkModeNormal, cansat2.cacheCfg,
      cansat2.readParamsWhileInConfigMode]

/-- C4 witness: AUX never rises for the readback but the echo captured a
0xC2-headed frame; the call reports degraded success. -/
theorem c4_degraded_echo_witness :
    (cansat2.applyConfig 1 2 3 0 3 0 1 0 env2EchoOnly st2).cfgOk = true
    ∧ (cansat2.applyConfig 1 2 3 0 3 0 1 0 env2EchoOnly st2).lastError
      = "No readback; echo ok (likely configured)"
    ∧ (cansat2.applyConfig 1 2 3 0 3 0 1 0 env2EchoOnly st2).lastError ≠ "" :=
  c4_degraded_echo 1 2 3 0 3 0 1 0 env2EchoOnly st2 rfl rfl (by decide) (by decide)
